import Mathlib

/-!
Verification of `mergekit/architecture.py`: the architecture catalog that maps a
model configuration to the ordered list of weight-tensor descriptors the
checkpoint must contain.  Every definition below is a shallow embedding of the
corresponding Python declaration; Python strings become `String`, Python `int`
becomes `Int`, `Optional[T]` becomes `Option T`, and a Python function that can
raise becomes `Except PyErr`.
-/

/-! ## String helpers for the embedding -/

/-- Replace every occurrence of the five-character placeholder (open brace,
`idx`, close brace) in a character list by the rendered index, as Python
`str.format(idx=...)` does for format strings whose only field is `idx`. -/
def replaceIdx (idxStr : List Char) : List Char → List Char
  | '\x7b' :: 'i' :: 'd' :: 'x' :: '\x7d' :: rest => idxStr ++ replaceIdx idxStr rest
  | c :: rest => c :: replaceIdx idxStr rest
  | [] => []

/-- Python `fmt.format(idx=index)` for the layer-prefix format strings of the
module, all of which use only the `idx` replacement field. -/
def pyFormatIdx (fmt : String) (idx : Int) : String :=
  ⟨replaceIdx (toString idx).data fmt.data⟩

/-- Python `needle in hay` on strings: `needle` occurs contiguously in `hay`. -/
def strContains (hay needle : String) : Prop := needle.data <:+: hay.data

instance (hay needle : String) : Decidable (strContains hay needle) :=
  inferInstanceAs (Decidable (needle.data <:+: hay.data))

/-! ## Data model -/

/-- `WeightInfo` (architecture.py line 23): information about an individual
weight tensor in a model.  Field defaults are the pydantic defaults. -/
structure WeightInfo where
  name : String
  is_embed : Bool := false
  input_space : Option String := none
  output_space : Option String := none
  optional : Bool := false
  aliases : Option (List String) := none
deriving DecidableEq

/-- The slice of `transformers.PretrainedConfig` the module reads: the list of
declared architecture names, the `model_type` discriminator, and integer
attributes looked up by name via `getattr` (layer counts, expert count). -/
structure PretrainedConfig where
  architectures : List String
  model_type : String
  getattr : String → Int

/-- `ArchitectureInfo` (line 49), as a record of the capabilities its abstract
methods promise.  `layer_weights` is `Optional` in the Python signature, hence
`Option` here.  The default of `num_layers_config_key` is the base-class
implementation (line 72). -/
structure ArchitectureInfo where
  pre_weights : List WeightInfo
  post_weights : List WeightInfo
  layer_weights : Int → Option (List WeightInfo)
  sliceable : Bool
  num_layers_config_key : String := "num_hidden_layers"

/-- `ArchitectureInfo.num_layers` (line 76): `getattr(config, self.num_layers_config_key())`. -/
def ArchitectureInfo.num_layers (self : ArchitectureInfo) (config : PretrainedConfig) : Int :=
  config.getattr self.num_layers_config_key

/-- The loop of `ArchitectureInfo.all_weights` (lines 83-84): starting from the
empty list, extend with `layer_weights(0)`, ..., `layer_weights(n-1)` in order.
A `none` from `layer_weights` would make the Python `list.extend` raise, which
the embedding reports as `none`. -/
def ArchitectureInfo.collectLayers (self : ArchitectureInfo) : Nat → Option (List WeightInfo)
  | 0 => some []
  | n + 1 =>
    match self.collectLayers n, self.layer_weights (Int.ofNat n) with
    | some acc, some ws => some (acc ++ ws)
    | _, _ => none

/-- `ArchitectureInfo.all_weights` (line 79): pre-weights, then the weights of
layers `0..num_layers-1` in order, then post-weights.  Python `range` of a
negative number is empty, hence `Int.toNat`. -/
def ArchitectureInfo.all_weights (self : ArchitectureInfo) (config : PretrainedConfig) :
    Option (List WeightInfo) :=
  match self.collectLayers (self.num_layers config).toNat with
  | some layers => some (self.pre_weights ++ layers ++ self.post_weights)
  | none => none

/-! ## StaticTensorNames -/

/-- `StaticTensorNames` (line 89): the table-driven descriptor. -/
structure StaticTensorNames where
  name : String
  pre_weight_names : List String
  post_weight_names : List String
  embed_weight_names : List String
  layer_prefix_format : String
  layer_weight_suffixes : List String
  num_layers_key : Option String := none
deriving DecidableEq

/-- `StaticTensorNames._make_weightinfo` (line 99): a `WeightInfo` whose
`is_embed` records membership of the name in `embed_weight_names`. -/
def StaticTensorNames.make_weightinfo (self : StaticTensorNames) (name : String) : WeightInfo :=
  { name := name, is_embed := self.embed_weight_names.contains name }

/-- `StaticTensorNames.pre_weights` (line 102). -/
def StaticTensorNames.pre_weights (self : StaticTensorNames) : List WeightInfo :=
  self.pre_weight_names.map self.make_weightinfo

/-- `StaticTensorNames.post_weights` (line 105). -/
def StaticTensorNames.post_weights (self : StaticTensorNames) : List WeightInfo :=
  self.post_weight_names.map self.make_weightinfo

/-- The list built by `StaticTensorNames.layer_weights` (lines 109-115): for
each suffix in order, the weight named by the formatted layer prefix, a dot,
and the suffix. -/
def StaticTensorNames.layerWeightList (self : StaticTensorNames) (index : Int) : List WeightInfo :=
  self.layer_weight_suffixes.map (fun suffix =>
    self.make_weightinfo (pyFormatIdx self.layer_prefix_format index ++ "." ++ suffix))

/-- `StaticTensorNames.layer_weights` (line 108): always returns the list, for
any index; the `Optional` in its signature is never `None`. -/
def StaticTensorNames.layer_weights (self : StaticTensorNames) (index : Int) :
    Option (List WeightInfo) :=
  some (self.layerWeightList index)

/-- `StaticTensorNames.num_layers_config_key` (line 118): the override key when
present and truthy (a nonempty string), else the base default. -/
def StaticTensorNames.num_layers_config_key (self : StaticTensorNames) : String :=
  match self.num_layers_key with
  | some k => if k = "" then "num_hidden_layers" else k
  | none => "num_hidden_layers"

/-- Package a `StaticTensorNames` as the `ArchitectureInfo` capability it
implements (`sliceable` is `True`, line 123). -/
def StaticTensorNames.toArch (self : StaticTensorNames) : ArchitectureInfo :=
  { pre_weights := self.pre_weights
    post_weights := self.post_weights
    layer_weights := self.layer_weights
    sliceable := true
    num_layers_config_key := self.num_layers_config_key }

/-! ## The static catalog (architecture.py lines 127-480) -/

/-- `LLAMA_INFO` (line 127). -/
def LLAMA_INFO : StaticTensorNames :=
  { name := "LlamaForCausalLM"
    pre_weight_names := ["model.embed_tokens.weight"]
    post_weight_names := ["model.norm.weight", "lm_head.weight"]
    embed_weight_names := ["model.embed_tokens.weight", "lm_head.weight"]
    layer_prefix_format := "model.layers.\x7bidx\x7d"
    layer_weight_suffixes := [
      "input_layernorm.weight",
      "mlp.up_proj.weight",
      "mlp.down_proj.weight",
      "mlp.gate_proj.weight",
      "post_attention_layernorm.weight",
      "self_attn.q_proj.weight",
      "self_attn.k_proj.weight",
      "self_attn.v_proj.weight",
      "self_attn.o_proj.weight"] }

/-- `MISTRAL_INFO` (line 146): every field of `LLAMA_INFO` except the name. -/
def MISTRAL_INFO : StaticTensorNames :=
  { LLAMA_INFO with name := "MistralForCausalLM" }

/-- `STABLELM_INFO` (line 191): `LLAMA_INFO` with extra post-weight and
per-layer bias names. -/
def STABLELM_INFO : StaticTensorNames :=
  { LLAMA_INFO with
    name := "StableLMEpochForCausalLM"
    post_weight_names := LLAMA_INFO.post_weight_names ++ ["model.norm.bias"]
    layer_weight_suffixes := LLAMA_INFO.layer_weight_suffixes ++
      ["input_layernorm.bias", "post_attention_layernorm.bias"] }

/-- `GPT_NEOX_INFO` (line 204). -/
def GPT_NEOX_INFO : StaticTensorNames :=
  { name := "GPTNeoXForCausalLM"
    pre_weight_names := ["gpt_neox.embed_in.weight"]
    post_weight_names := [
      "gpt_neox.final_layer_norm.bias",
      "gpt_neox.final_layer_norm.weight",
      "embed_out.weight"]
    embed_weight_names := ["gpt_neox.embed_in.weight", "embed_out.weight"]
    layer_prefix_format := "gpt_neox.layers.\x7bidx\x7d"
    layer_weight_suffixes :=
      (["attention.dense",
        "attention.query_key_value",
        "input_layernorm",
        "mlp.dense_4h_to_h",
        "mlp.dense_h_to_4h",
        "post_attention_layernorm"].flatMap (fun p => [p ++ ".weight", p ++ ".bias"])) ++
      ["attention.bias", "attention.masked_bias", "attention.rotary_emb.inv_freq"] }

/-- `GPT2_INFO` (line 231).  Note `mlp.c_proj.weight` and `mlp.c_proj.bias`
each appear twice in the suffix list, exactly as in the source. -/
def GPT2_INFO : StaticTensorNames :=
  { name := "GPT2LMHeadModel"
    pre_weight_names := ["wte.weight", "wpe.weight"]
    post_weight_names := ["ln_f.weight", "ln_f.bias"]
    embed_weight_names := ["wte.weight"]
    layer_prefix_format := "h.\x7bidx\x7d"
    layer_weight_suffixes := [
      "attn.c_attn.weight",
      "attn.c_attn.bias",
      "attn.c_proj.weight",
      "attn.c_proj.bias",
      "ln_1.weight",
      "ln_1.bias",
      "ln_2.weight",
      "ln_2.bias",
      "mlp.c_proj.weight",
      "mlp.c_proj.bias",
      "mlp.c_fc.weight",
      "mlp.c_fc.bias",
      "mlp.c_proj.weight",
      "mlp.c_proj.bias"]
    num_layers_key := some "n_layer" }

/-- `JAIS_INFO` (line 256). -/
def JAIS_INFO : StaticTensorNames :=
  { name := "JAISLMHeadModel"
    pre_weight_names := ["transformer.wte.weight", "transformer.relative_pe.slopes"]
    post_weight_names := ["transformer.ln_f.weight", "transformer.ln_f.bias"]
    embed_weight_names := ["transformer.wte.weight"]
    layer_prefix_format := "transformer.h.\x7bidx\x7d"
    layer_weight_suffixes := [
      "attn.c_attn.weight",
      "attn.c_attn.bias",
      "attn.c_proj.weight",
      "attn.c_proj.bias",
      "ln_1.weight",
      "ln_1.bias",
      "ln_2.weight",
      "ln_2.bias",
      "mlp.c_fc.weight",
      "mlp.c_fc.bias",
      "mlp.c_fc2.weight",
      "mlp.c_fc2.bias",
      "mlp.c_proj.weight",
      "mlp.c_proj.bias"]
    num_layers_key := some "n_layer" }

/-- `GPT2_SEQCLASS_INFO` (line 281). -/
def GPT2_SEQCLASS_INFO : StaticTensorNames :=
  { name := "GPT2ForSequenceClassification"
    pre_weight_names := ["transformer.wte.weight", "transformer.wpe.weight"]
    post_weight_names := [
      "transformer.ln_f.weight",
      "transformer.ln_f.bias",
      "score.weight"]
    layer_prefix_format := "transformer.h.\x7bidx\x7d"
    embed_weight_names := GPT2_INFO.embed_weight_names
    layer_weight_suffixes := GPT2_INFO.layer_weight_suffixes
    num_layers_key := GPT2_INFO.num_layers_key }

/-- `QWEN_INFO` (line 296). -/
def QWEN_INFO : StaticTensorNames :=
  { name := "QWenLMHeadModel"
    pre_weight_names := ["transformer.wte.weight"]
    post_weight_names := ["transformer.ln_f.weight", "lm_head.weight"]
    embed_weight_names := ["transformer.wte.weight", "lm_head.weight"]
    layer_prefix_format := "transformer.h.\x7bidx\x7d"
    layer_weight_suffixes := [
      "attn.c_attn.bias",
      "attn.c_attn.weight",
      "attn.c_proj.weight",
      "ln_1.weight",
      "ln_2.weight",
      "mlp.c_proj.weight",
      "mlp.w1.weight",
      "mlp.w2.weight"] }

/-- `CHATGLM_INFO` (line 314). -/
def CHATGLM_INFO : StaticTensorNames :=
  { name := "ChatGLMModel"
    pre_weight_names := [
      "transformer.embedding.word_embeddings.weight",
      "transformer.rotary_pos_emb.inv_freq"]
    post_weight_names := [
      "transformer.encoder.final_layernorm.weight",
      "transformer.output_layer.weight"]
    embed_weight_names := [
      "transformer.embedding.word_embeddings.weight",
      "transformer.output_layer.weight"]
    layer_prefix_format := "transformer.encoder.layers.\x7bidx\x7d"
    layer_weight_suffixes := [
      "input_layernorm.weight",
      "mlp.dense_4h_to_h.weight",
      "mlp.dense_h_to_4h.weight",
      "post_attention_layernorm.weight",
      "self_attention.dense.weight",
      "self_attention.query_key_value.bias",
      "self_attention.query_key_value.weight"] }

/-- `FALCON_INFO` (line 340). -/
def FALCON_INFO : StaticTensorNames :=
  { name := "FalconForCausalLM"
    pre_weight_names := ["transformer.word_embeddings.weight"]
    post_weight_names := [
      "transformer.ln_f.weight",
      "transformer.ln_f.bias",
      "lm_head.weight"]
    embed_weight_names := ["transformer.word_embeddings.weight", "lm_head.weight"]
    layer_prefix_format := "transformer.h.\x7bidx\x7d"
    layer_weight_suffixes := [
      "ln_attn.bias",
      "ln_attn.weight",
      "ln_mlp.bias",
      "ln_mlp.weight",
      "mlp.dense_4h_to_h.weight",
      "mlp.dense_h_to_4h.weight",
      "self_attention.dense.weight",
      "self_attention.query_key_value.weight"] }

/-- `PHI2_INFO` (line 408): the `PhiForCausalLM` layout selected by
`model_type == "phi-msft"`. -/
def PHI2_INFO : StaticTensorNames :=
  { name := "PhiForCausalLM"
    pre_weight_names := ["transformer.embd.wte.weight"]
    post_weight_names := [
      "lm_head.linear.bias",
      "lm_head.linear.weight",
      "lm_head.ln.bias",
      "lm_head.ln.weight"]
    embed_weight_names := ["lm_head.linear.weight", "transformer.embd.wte.weight"]
    layer_prefix_format := "transformer.h.\x7bidx\x7d"
    layer_weight_suffixes := [
      "ln.bias",
      "ln.weight",
      "mixer.out_proj.bias",
      "mixer.out_proj.weight",
      "mixer.Wqkv.bias",
      "mixer.Wqkv.weight",
      "mlp.fc1.bias",
      "mlp.fc1.weight",
      "mlp.fc2.bias",
      "mlp.fc2.weight"]
    num_layers_key := some "n_layer" }

/-- `PHI2_INFO_AGAIN_BUT_DIFFERENT` (line 435): the `PhiForCausalLM` layout
selected by `model_type == "phi"`. -/
def PHI2_INFO_AGAIN_BUT_DIFFERENT : StaticTensorNames :=
  { name := "PhiForCausalLM"
    pre_weight_names := ["model.embed_tokens.weight"]
    post_weight_names := [
      "lm_head.bias",
      "lm_head.weight",
      "model.final_layernorm.bias",
      "model.final_layernorm.weight"]
    embed_weight_names := ["lm_head.weight", "model.embed_tokens.weight"]
    layer_prefix_format := "model.layers.\x7bidx\x7d"
    layer_weight_suffixes := [
      "input_layernorm.bias",
      "input_layernorm.weight",
      "self_attn.dense.bias",
      "self_attn.dense.weight",
      "self_attn.q_proj.bias",
      "self_attn.q_proj.weight",
      "self_attn.k_proj.bias",
      "self_attn.k_proj.weight",
      "self_attn.v_proj.bias",
      "self_attn.v_proj.weight",
      "mlp.fc1.bias",
      "mlp.fc1.weight",
      "mlp.fc2.bias",
      "mlp.fc2.weight"] }

/-- `BAICHUAN_INFO` (line 465). -/
def BAICHUAN_INFO : StaticTensorNames :=
  { name := "BaichuanForCausalLM"
    pre_weight_names := ["model.embed_tokens.weight"]
    post_weight_names := ["model.norm.weight", "lm_head.weight"]
    embed_weight_names := ["model.embed_tokens.weight", "lm_head.weight"]
    layer_prefix_format := "model.layers.\x7bidx\x7d"
    layer_weight_suffixes := [
      "input_layernorm.weight",
      "self_attn.W_pack.weight",
      "self_attn.o_proj.weight",
      "post_attention_layernorm.weight",
      "mlp.gate_proj.weight",
      "mlp.down_proj.weight",
      "mlp.up_proj.weight"] }

/-- Every `StaticTensorNames` constant defined in the module. -/
def catalogStatic : List StaticTensorNames :=
  [LLAMA_INFO, MISTRAL_INFO, STABLELM_INFO, GPT_NEOX_INFO, GPT2_INFO, JAIS_INFO,
   GPT2_SEQCLASS_INFO, QWEN_INFO, CHATGLM_INFO, FALCON_INFO, PHI2_INFO,
   PHI2_INFO_AGAIN_BUT_DIFFERENT, BAICHUAN_INFO]

/-! ## Computed-layout descriptors -/

/-- `MixtralTensorNames` (line 153): per-layer weights computed from the
configured expert count. -/
structure MixtralTensorNames where
  num_local_experts : Int
deriving DecidableEq

/-- `MixtralTensorNames.ARCHITECTURE_NAME` (line 154). -/
def MixtralTensorNames.ARCHITECTURE_NAME : String := "MixtralForCausalLM"

/-- `MixtralTensorNames.from_config` (line 157): a classmethod reading
`config.num_local_experts`. -/
def MixtralTensorNames.from_config (config : PretrainedConfig) : MixtralTensorNames :=
  { num_local_experts := config.getattr "num_local_experts" }

/-- The list built by `MixtralTensorNames.layer_weights` (lines 170-185): for
each expert index and each of `w1`, `w2`, `w3` one expert tensor, then the
gate tensor; `is_embed` checks membership in `MISTRAL_INFO.embed_weight_names`. -/
def MixtralTensorNames.layerWeightList (self : MixtralTensorNames) (index : Int) :
    List WeightInfo :=
  let pfx := pyFormatIdx MISTRAL_INFO.layer_prefix_format index
  let tensor_names :=
    ((List.range self.num_local_experts.toNat).flatMap (fun expert_idx =>
      ["w1", "w2", "w3"].map (fun param =>
        pfx ++ ".block_sparse_moe.experts." ++ toString expert_idx ++ "." ++ param ++ ".weight")))
    ++ [pfx ++ ".block_sparse_moe.gate.weight"]
  tensor_names.map (fun name =>
    { name := name, is_embed := MISTRAL_INFO.embed_weight_names.contains name })

/-- `MixtralTensorNames.layer_weights` (line 170), which always returns a list. -/
def MixtralTensorNames.layer_weights (self : MixtralTensorNames) (index : Int) :
    Option (List WeightInfo) :=
  some (self.layerWeightList index)

/-- The `ArchitectureInfo` capability of `MixtralTensorNames`: pre/post weights
and the layer-count key delegate to `MISTRAL_INFO` (lines 161-168),
`sliceable` is `True` (line 187). -/
def MixtralTensorNames.toArch (self : MixtralTensorNames) : ArchitectureInfo :=
  { pre_weights := MISTRAL_INFO.pre_weights
    post_weights := MISTRAL_INFO.post_weights
    layer_weights := self.layer_weights
    sliceable := true
    num_layers_config_key := MISTRAL_INFO.num_layers_config_key }

/-- `PhiTensorNames` (line 363): layout of the original Phi release, computed
from `n_layer`. -/
structure PhiTensorNames where
  n_layer : Int
deriving DecidableEq

/-- `PhiTensorNames.ARCHITECTURE_NAME` (line 364). -/
def PhiTensorNames.ARCHITECTURE_NAME : String := "MixFormerSequentialForCausalLM"

/-- `PhiTensorNames.pre_weights` (line 370). -/
def PhiTensorNames.pre_weights (self : PhiTensorNames) : List WeightInfo :=
  [{ name := "layers.0.wte.weight", is_embed := true }]

/-- `PhiTensorNames.post_weights` (line 373): weights of the fake layer at
index `n_layer`; `is_embed` is `suffix.startswith("linear.")`. -/
def PhiTensorNames.post_weights (self : PhiTensorNames) : List WeightInfo :=
  ["linear.bias", "linear.weight", "ln.bias", "ln.weight"].map (fun suffix =>
    { name := "layers." ++ toString self.n_layer ++ "." ++ suffix,
      is_embed := "linear.".isPrefixOf suffix })

/-- `PhiTensorNames.layer_weights` (line 383). -/
def PhiTensorNames.layer_weights (self : PhiTensorNames) (index : Int) :
    Option (List WeightInfo) :=
  some (["ln.bias",
    "ln.weight",
    "mixer.Wqkv.bias",
    "mixer.Wqkv.weight",
    "mixer.out_proj.bias",
    "mixer.out_proj.weight",
    "mixer.rotary_emb.inv_freq",
    "mlp.fc1.bias",
    "mlp.fc1.weight",
    "mlp.fc2.bias",
    "mlp.fc2.weight"].map (fun suffix =>
      { name := "layers." ++ toString index ++ "." ++ suffix }))

/-! ## Dispatch (`get_architecture_info`, line 483) -/

/-- The Python exceptions the dispatcher can raise. -/
inductive PyErr where
  | runtimeError (msg : String)
  | typeError (msg : String)
deriving DecidableEq

/-- The descriptor kinds `get_architecture_info` can return. -/
inductive ResolvedArchitecture where
  | static (s : StaticTensorNames)
  | mixtral (m : MixtralTensorNames)
  | phi (p : PhiTensorNames)
deriving DecidableEq

/-- The `supported` table scanned by `get_architecture_info` (line 499). -/
def supported : List StaticTensorNames :=
  [LLAMA_INFO, MISTRAL_INFO, GPT_NEOX_INFO, QWEN_INFO, GPT2_INFO, GPT2_SEQCLASS_INFO,
   CHATGLM_INFO, STABLELM_INFO, JAIS_INFO, BAICHUAN_INFO, FALCON_INFO]

/-- The scan loop of `get_architecture_info` (lines 512-516): return the first
table entry whose name matches, else raise `Unsupported architecture`. -/
def scanSupported (arch_name : String) : Except PyErr ResolvedArchitecture :=
  match supported.find? (fun arch => arch.name == arch_name) with
  | some arch => Except.ok (ResolvedArchitecture.static arch)
  | none => Except.error (PyErr.runtimeError ("Unsupported architecture " ++ arch_name))

/-- `get_architecture_info` (line 483).  The branch for
`PhiTensorNames.ARCHITECTURE_NAME` models the actual runtime behaviour of
`PhiTensorNames.from_config(config)`: that method is declared without the
`classmethod` decorator (line 367, unlike `MixtralTensorNames.from_config`),
so accessing it on the class and calling it with one argument binds `config`
to the `cls` parameter and raises `TypeError` for the missing `config`
argument before any descriptor is produced. -/
def get_architecture_info (config : PretrainedConfig) : Except PyErr ResolvedArchitecture :=
  match config.architectures with
  | [arch_name] =>
    if arch_name = PhiTensorNames.ARCHITECTURE_NAME then
      Except.error (PyErr.typeError "from_config() missing 1 required positional argument: config")
    else if arch_name = MixtralTensorNames.ARCHITECTURE_NAME then
      Except.ok (ResolvedArchitecture.mixtral (MixtralTensorNames.from_config config))
    else if arch_name = PHI2_INFO.name then
      if config.model_type = "phi-msft" then
        Except.ok (ResolvedArchitecture.static PHI2_INFO)
      else if config.model_type = "phi" then
        Except.ok (ResolvedArchitecture.static PHI2_INFO_AGAIN_BUT_DIFFERENT)
      else
        scanSupported arch_name
    else
      scanSupported arch_name
  | _ => Except.error (PyErr.runtimeError "More than one architecture in config?")

/-! ## Helper lemmas -/

/-- A string visibly decomposed around `needle` contains `needle`. -/
theorem strContains_mid (pre needle post : String) :
    strContains (pre ++ needle ++ post) needle :=
  ⟨pre.data, post.data, by simp⟩

/-- Two strings differ when they already differ on the first `n` characters of
a leading block. -/
theorem ne_of_append_take (p t s : String) (n : Nat) (hn : n ≤ p.data.length)
    (hne : p.data.take n ≠ s.data.take n) : p ++ t ≠ s := by
  intro h
  apply hne
  have h2 := congrArg (fun x : String => x.data.take n) h
  simp only [String.data_append] at h2
  rwa [List.take_append_of_le_length hn] at h2

/-- Formatting the Llama-family layer prefix. -/
theorem pyFormatIdx_model_layers (i : Int) :
    pyFormatIdx "model.layers.\x7bidx\x7d" i = "model.layers." ++ toString i := by
  show String.mk _ = _
  simp [replaceIdx]
  rfl

/-- Formatting the GPT-NeoX layer prefix. -/
theorem pyFormatIdx_gpt_neox_layers (i : Int) :
    pyFormatIdx "gpt_neox.layers.\x7bidx\x7d" i = "gpt_neox.layers." ++ toString i := by
  show String.mk _ = _
  simp [replaceIdx]
  rfl

/-- Formatting the GPT-2 layer prefix. -/
theorem pyFormatIdx_h (i : Int) :
    pyFormatIdx "h.\x7bidx\x7d" i = "h." ++ toString i := by
  show String.mk _ = _
  simp [replaceIdx]
  rfl

/-- Formatting the `transformer.h` layer prefix. -/
theorem pyFormatIdx_transformer_h (i : Int) :
    pyFormatIdx "transformer.h.\x7bidx\x7d" i = "transformer.h." ++ toString i := by
  show String.mk _ = _
  simp [replaceIdx]
  rfl

/-- Formatting the ChatGLM layer prefix. -/
theorem pyFormatIdx_transformer_encoder_layers (i : Int) :
    pyFormatIdx "transformer.encoder.layers.\x7bidx\x7d" i =
      "transformer.encoder.layers." ++ toString i := by
  show String.mk _ = _
  simp [replaceIdx]
  rfl

/-- The `all_weights` loop over layers `0..n-1` produces the concatenation of
the per-layer lists when `layer_weights` never returns `none`. -/
theorem collectLayers_eq (a : ArchitectureInfo) (L : Int → List WeightInfo)
    (h : ∀ i, a.layer_weights i = some (L i)) (n : Nat) :
    a.collectLayers n = some (((List.range n).map (fun i => L (Int.ofNat i))).flatten) := by
  induction n with
  | zero => rfl
  | succ n ih =>
    simp [ArchitectureInfo.collectLayers, ih, h, List.range_succ]

/-- A static descriptor emits one weight per configured suffix. -/
theorem layerWeightList_length (s : StaticTensorNames) (i : Int) :
    (s.layerWeightList i).length = s.layer_weight_suffixes.length := by
  simp [StaticTensorNames.layerWeightList]

/-! ## Claims -/

/-- C1: for every architecture descriptor and configuration whose layer-count
field holds a non-negative integer `N`, `all_weights` returns exactly the
concatenation of `pre_weights`, `layer_weights 0`, ..., `layer_weights (N-1)`,
and `post_weights`, in that order; and for a static descriptor with `P`
pre-weight names, `Q` post-weight names and `S` per-layer suffixes its length
is `P + N*S + Q`. -/
theorem c1_all_weights_concatenation :
    (∀ (a : ArchitectureInfo) (config : PretrainedConfig) (N : Int)
        (L : Int → List WeightInfo),
      0 ≤ N → a.num_layers config = N →
      (∀ i, a.layer_weights i = some (L i)) →
      a.all_weights config =
        some (a.pre_weights ++
          ((List.range N.toNat).map (fun i => L (Int.ofNat i))).flatten ++
          a.post_weights)) ∧
    (∀ (s : StaticTensorNames) (config : PretrainedConfig) (N : Int),
      0 ≤ N → s.toArch.num_layers config = N →
      ∃ l, s.toArch.all_weights config = some l ∧
        (l.length : Int) =
          s.pre_weight_names.length + N * s.layer_weight_suffixes.length +
            s.post_weight_names.length) := by
  constructor
  · intro a config N L _ hN hL
    unfold ArchitectureInfo.all_weights
    rw [hN, collectLayers_eq a L hL]
  · intro s config N h0 hN
    refine ⟨s.toArch.pre_weights ++
      ((List.range N.toNat).map (fun i => s.layerWeightList (Int.ofNat i))).flatten ++
      s.toArch.post_weights, ?_, ?_⟩
    · unfold ArchitectureInfo.all_weights
      rw [hN, collectLayers_eq s.toArch s.layerWeightList (fun i => rfl)]
    · have hlen : ∀ i ∈ List.range N.toNat,
          ((fun i => s.layerWeightList (Int.ofNat i)) i).length =
          s.layer_weight_suffixes.length := fun i _ => layerWeightList_length s _
      simp only [List.length_append, List.length_flatten, List.map_map]
      rw [show (List.range N.toNat).map
            (List.length ∘ fun i => s.layerWeightList (Int.ofNat i)) =
          (List.range N.toNat).map (fun _ => s.layer_weight_suffixes.length) from
        List.map_congr_left (fun i hi => layerWeightList_length s _)]
      rw [List.map_const', List.sum_replicate, List.length_range, smul_eq_mul]
      have hpre : s.toArch.pre_weights.length = s.pre_weight_names.length := by
        simp [StaticTensorNames.toArch, StaticTensorNames.pre_weights]
      have hpost : s.toArch.post_weights.length = s.post_weight_names.length := by
        simp [StaticTensorNames.toArch, StaticTensorNames.post_weights]
      rw [hpre, hpost]
      push_cast [Int.toNat_of_nonneg h0]
      ring

/-- Witness for C1: the Llama descriptor with layer count 2 satisfies both
parts of the claim. -/
theorem c1_all_weights_concatenation_witness :
    ((0 : Int) ≤ 2 ∧
      LLAMA_INFO.toArch.num_layers
        ⟨["LlamaForCausalLM"], "llama", fun k => if k = "num_hidden_layers" then 2 else 0⟩ = 2 ∧
      LLAMA_INFO.toArch.all_weights
        ⟨["LlamaForCausalLM"], "llama", fun k => if k = "num_hidden_layers" then 2 else 0⟩ =
        some (LLAMA_INFO.toArch.pre_weights ++
          ((List.range (2 : Int).toNat).map
            (fun i => LLAMA_INFO.layerWeightList (Int.ofNat i))).flatten ++
          LLAMA_INFO.toArch.post_weights)) ∧
    (∃ l, LLAMA_INFO.toArch.all_weights
        ⟨["LlamaForCausalLM"], "llama", fun k => if k = "num_hidden_layers" then 2 else 0⟩ =
          some l ∧
      (l.length : Int) =
        LLAMA_INFO.pre_weight_names.length +
          2 * LLAMA_INFO.layer_weight_suffixes.length +
          LLAMA_INFO.post_weight_names.length) :=
  ⟨⟨by decide, rfl,
    c1_all_weights_concatenation.1 LLAMA_INFO.toArch
      ⟨["LlamaForCausalLM"], "llama", fun k => if k = "num_hidden_layers" then 2 else 0⟩
      2 LLAMA_INFO.layerWeightList (by decide) rfl (fun i => rfl)⟩,
    c1_all_weights_concatenation.2 LLAMA_INFO
      ⟨["LlamaForCausalLM"], "llama", fun k => if k = "num_hidden_layers" then 2 else 0⟩
      2 (by decide) rfl⟩

/-- C10: `StaticTensorNames.layer_weights` is total on every integer index,
including negatives and indices at or above any layer count: it never returns
the no-such-layer result and the list always has exactly one entry per
configured suffix; no bounds check is performed. -/
theorem c10_static_layer_weights_total (s : StaticTensorNames) (index : Int) :
    s.layer_weights index = some (s.layerWeightList index) ∧
    (s.layerWeightList index).length = s.layer_weight_suffixes.length :=
  ⟨rfl, layerWeightList_length s index⟩

/-- Appending distinct suffixes to one layer prefix yields distinct weights. -/
theorem make_weightinfo_suffix_injective (s : StaticTensorNames) (pfx : String) :
    Function.Injective (fun suffix => s.make_weightinfo (pfx ++ "." ++ suffix)) := by
  intro a b hab
  have hname := congrArg WeightInfo.name hab
  simp only [StaticTensorNames.make_weightinfo] at hname
  have hdata := congrArg String.data hname
  simp only [String.data_append, List.append_cancel_left_eq] at hdata
  exact String.ext hdata

/-- C9: the GPT-2 per-layer suffix list contains the MLP output projection
weight and bias names each exactly twice, and for every layer index the
per-layer weight list keeps two identical entries for each of them. -/
theorem c9_gpt2_duplicate_suffixes :
    GPT2_INFO.layer_weight_suffixes.count "mlp.c_proj.weight" = 2 ∧
    GPT2_INFO.layer_weight_suffixes.count "mlp.c_proj.bias" = 2 ∧
    ∀ index : Int,
      (GPT2_INFO.layerWeightList index).count
        (GPT2_INFO.make_weightinfo
          (pyFormatIdx GPT2_INFO.layer_prefix_format index ++ "." ++ "mlp.c_proj.weight")) = 2 ∧
      (GPT2_INFO.layerWeightList index).count
        (GPT2_INFO.make_weightinfo
          (pyFormatIdx GPT2_INFO.layer_prefix_format index ++ "." ++ "mlp.c_proj.bias")) = 2 := by
  refine ⟨by decide, by decide, fun index => ⟨?_, ?_⟩⟩
  · have h := List.count_map_of_injective GPT2_INFO.layer_weight_suffixes
      (fun suffix => GPT2_INFO.make_weightinfo
        (pyFormatIdx GPT2_INFO.layer_prefix_format index ++ "." ++ suffix))
      (make_weightinfo_suffix_injective GPT2_INFO _) "mlp.c_proj.weight"
    unfold StaticTensorNames.layerWeightList
    rw [h]
    decide
  · have h := List.count_map_of_injective GPT2_INFO.layer_weight_suffixes
      (fun suffix => GPT2_INFO.make_weightinfo
        (pyFormatIdx GPT2_INFO.layer_prefix_format index ++ "." ++ suffix))
      (make_weightinfo_suffix_injective GPT2_INFO _) "mlp.c_proj.bias"
    unfold StaticTensorNames.layerWeightList
    rw [h]
    decide

/-- Every weight of a static descriptor whose layer-prefix format is a literal
ending in the index placeholder has the rendered index inside its name. -/
theorem layer_name_contains_index (s : StaticTensorNames) (base : String)
    (hfmt : ∀ j : Int, pyFormatIdx s.layer_prefix_format j = base ++ toString j)
    (i : Int) (w : WeightInfo) (hw : w ∈ s.layerWeightList i) :
    strContains w.name (toString i) := by
  simp only [StaticTensorNames.layerWeightList, List.mem_map] at hw
  obtain ⟨suffix, hsuf, rfl⟩ := hw
  show strContains (pyFormatIdx s.layer_prefix_format i ++ "." ++ suffix) (toString i)
  rw [hfmt i, String.append_assoc]
  exact strContains_mid base (toString i) ("." ++ suffix)

/-- C8 counterexample: the original claim also asserts that no name emitted for
layer `i` contains the formatted index of any other layer, but the GPT-2 weight
`h.0.ln_1.weight` of layer 0 contains `1`, the formatted index of layer 1. -/
theorem c8_other_index_counterexample :
    GPT2_INFO ∈ catalogStatic ∧
    WeightInfo.mk "h.0.ln_1.weight" false none none false none ∈
      GPT2_INFO.layerWeightList 0 ∧
    strContains "h.0.ln_1.weight" (toString (1 : Int)) ∧
    (1 : Int) ≠ 0 := by
  refine ⟨by decide, ?_, by decide, by decide⟩
  decide

/-- C8 (amended): for every static descriptor in the catalog and every layer
index `i`, each tensor name returned by `layer_weights i` contains the
formatted layer index `i`; names may additionally contain digit substrings
equal to other layers' formatted indices (e.g. from suffixes such as `ln_1`),
so the "and none other" part of the original claim is dropped. -/
theorem c8_layer_index_in_names (s : StaticTensorNames) (hs : s ∈ catalogStatic)
    (i : Int) (w : WeightInfo) (hw : w ∈ s.layerWeightList i) :
    strContains w.name (toString i) := by
  fin_cases hs
  · exact layer_name_contains_index LLAMA_INFO "model.layers." pyFormatIdx_model_layers i w hw
  · exact layer_name_contains_index MISTRAL_INFO "model.layers." pyFormatIdx_model_layers i w hw
  · exact layer_name_contains_index STABLELM_INFO "model.layers." pyFormatIdx_model_layers i w hw
  · exact layer_name_contains_index GPT_NEOX_INFO "gpt_neox.layers."
      pyFormatIdx_gpt_neox_layers i w hw
  · exact layer_name_contains_index GPT2_INFO "h." pyFormatIdx_h i w hw
  · exact layer_name_contains_index JAIS_INFO "transformer.h." pyFormatIdx_transformer_h i w hw
  · exact layer_name_contains_index GPT2_SEQCLASS_INFO "transformer.h."
      pyFormatIdx_transformer_h i w hw
  · exact layer_name_contains_index QWEN_INFO "transformer.h." pyFormatIdx_transformer_h i w hw
  · exact layer_name_contains_index CHATGLM_INFO "transformer.encoder.layers."
      pyFormatIdx_transformer_encoder_layers i w hw
  · exact layer_name_contains_index FALCON_INFO "transformer.h." pyFormatIdx_transformer_h i w hw
  · exact layer_name_contains_index PHI2_INFO "transformer.h." pyFormatIdx_transformer_h i w hw
  · exact layer_name_contains_index PHI2_INFO_AGAIN_BUT_DIFFERENT "model.layers."
      pyFormatIdx_model_layers i w hw
  · exact layer_name_contains_index BAICHUAN_INFO "model.layers." pyFormatIdx_model_layers i w hw

/-- Witness for C8: the first GPT-2 weight of layer 0 contains `0`. -/
theorem c8_layer_index_in_names_witness :
    GPT2_INFO ∈ catalogStatic ∧
    WeightInfo.mk "h.0.attn.c_attn.weight" false none none false none ∈
      GPT2_INFO.layerWeightList 0 ∧
    strContains "h.0.attn.c_attn.weight" (toString (0 : Int)) :=
  ⟨by decide, by decide,
    c8_layer_index_in_names GPT2_INFO (by decide) 0
      (WeightInfo.mk "h.0.attn.c_attn.weight" false none none false none) (by decide)⟩

/-- No tensor name generated under the Mistral layer prefix is one of the
Mistral embedding names. -/
theorem mistral_embed_no_layer_name (t : String) :
    MISTRAL_INFO.embed_weight_names.contains ("model.layers." ++ t) = false := by
  have h1 : ("model.layers." ++ t) ≠ "model.embed_tokens.weight" :=
    ne_of_append_take "model.layers." t "model.embed_tokens.weight" 7 (by decide) (by decide)
  have h2 : ("model.layers." ++ t) ≠ "lm_head.weight" :=
    ne_of_append_take "model.layers." t "lm_head.weight" 1 (by decide) (by decide)
  rw [show MISTRAL_INFO.embed_weight_names =
    ["model.embed_tokens.weight", "lm_head.weight"] from rfl]
  simp [h1, h2]

/-- C6: for the mixture-of-experts descriptor with expert count `E >= 0` and
any layer index, `layer_weights` returns exactly `3*E + 1` weights: for each
expert index in order, one weight per expert parameter `w1`, `w2`, `w3`
(expert-major order), followed by exactly one gate weight, all with
`is_embed = false`. -/
theorem c6_mixtral_layer_weights (m : MixtralTensorNames) (index : Int)
    (h : 0 ≤ m.num_local_experts) :
    m.layer_weights index = some (m.layerWeightList index) ∧
    (m.layerWeightList index).map WeightInfo.name =
      ((List.range m.num_local_experts.toNat).flatMap (fun expert_idx =>
        ["w1", "w2", "w3"].map (fun param =>
          ("model.layers." ++ toString index) ++ ".block_sparse_moe.experts." ++
            toString expert_idx ++ "." ++ param ++ ".weight"))) ++
      [("model.layers." ++ toString index) ++ ".block_sparse_moe.gate.weight"] ∧
    ((m.layerWeightList index).length : Int) = 3 * m.num_local_experts + 1 ∧
    ∀ w ∈ m.layerWeightList index, w.is_embed = false := by
  refine ⟨rfl, ?_, ?_, ?_⟩
  · simp only [MixtralTensorNames.layerWeightList, List.map_map, List.map_append,
      show MISTRAL_INFO.layer_prefix_format = "model.layers.\x7bidx\x7d" from rfl,
      pyFormatIdx_model_layers]
    simp [List.map_flatMap, Function.comp]
  · simp only [MixtralTensorNames.layerWeightList, List.length_map, List.length_append,
      List.length_singleton]
    rw [List.flatMap_def, List.length_flatten, List.map_map]
    rw [show (List.length ∘ fun expert_idx => (["w1", "w2", "w3"] : List String).map
        (fun param =>
          pyFormatIdx MISTRAL_INFO.layer_prefix_format index ++
            ".block_sparse_moe.experts." ++ toString expert_idx ++ "." ++ param ++
            ".weight")) = fun _ => 3 from rfl]
    rw [List.map_const', List.sum_replicate, List.length_range, smul_eq_mul]
    push_cast [Int.toNat_of_nonneg h]
    ring
  · intro w hw
    simp only [MixtralTensorNames.layerWeightList, List.mem_map] at hw
    obtain ⟨nm, hnm, rfl⟩ := hw
    show MISTRAL_INFO.embed_weight_names.contains nm = false
    rw [List.mem_append] at hnm
    rcases hnm with hnm | hnm
    · rw [List.mem_flatMap] at hnm
      obtain ⟨expert_idx, _, hp⟩ := hnm
      rw [List.mem_map] at hp
      obtain ⟨param, _, rfl⟩ := hp
      rw [show MISTRAL_INFO.layer_prefix_format = "model.layers.\x7bidx\x7d" from rfl,
        pyFormatIdx_model_layers, String.append_assoc]
      exact mistral_embed_no_layer_name _
    · rw [List.mem_singleton] at hnm
      subst hnm
      rw [show MISTRAL_INFO.layer_prefix_format = "model.layers.\x7bidx\x7d" from rfl,
        pyFormatIdx_model_layers, String.append_assoc]
      exact mistral_embed_no_layer_name _

/-- Witness for C6: the Mixtral descriptor with 2 experts at layer 0. -/
theorem c6_mixtral_layer_weights_witness :
    (0 : Int) ≤ (MixtralTensorNames.mk 2).num_local_experts ∧
    ((MixtralTensorNames.mk 2).layer_weights 0 =
        some ((MixtralTensorNames.mk 2).layerWeightList 0) ∧
      ((MixtralTensorNames.mk 2).layerWeightList 0).map WeightInfo.name =
        ((List.range (MixtralTensorNames.mk 2).num_local_experts.toNat).flatMap
          (fun expert_idx =>
            ["w1", "w2", "w3"].map (fun param =>
              ("model.layers." ++ toString (0 : Int)) ++ ".block_sparse_moe.experts." ++
                toString expert_idx ++ "." ++ param ++ ".weight"))) ++
        [("model.layers." ++ toString (0 : Int)) ++ ".block_sparse_moe.gate.weight"] ∧
      (((MixtralTensorNames.mk 2).layerWeightList 0).length : Int) =
        3 * (MixtralTensorNames.mk 2).num_local_experts + 1 ∧
      ∀ w ∈ (MixtralTensorNames.mk 2).layerWeightList 0, w.is_embed = false) :=
  ⟨by decide, c6_mixtral_layer_weights (MixtralTensorNames.mk 2) 0 (by decide)⟩

/-- C2: dispatch on the declared name `MixFormerSequentialForCausalLM` does not
return the matching descriptor but raises `TypeError`, because
`PhiTensorNames.from_config` is declared without the `classmethod` decorator;
the claim that every supported name resolves to a matching descriptor fails on
this name. -/
theorem c2_mixformer_dispatch_typeerror :
    get_architecture_info ⟨["MixFormerSequentialForCausalLM"], "phi-msft", fun _ => 0⟩ =
      Except.error (PyErr.typeError
        "from_config() missing 1 required positional argument: config") := rfl

/-- C3: for every configuration declaring the shared name `PhiForCausalLM`,
discriminator `phi-msft` yields the descriptor whose per-layer suffixes use
the `mixer` vocabulary (with `linear` post-weights) and discriminator `phi`
yields the one using the `self_attn`/`q_proj` vocabulary; the two have
different pre-weight and post-weight name lists. -/
theorem c3_phi_variants_disambiguation :
    (∀ f : String → Int, get_architecture_info ⟨["PhiForCausalLM"], "phi-msft", f⟩ =
      Except.ok (ResolvedArchitecture.static PHI2_INFO)) ∧
    (∀ f : String → Int, get_architecture_info ⟨["PhiForCausalLM"], "phi", f⟩ =
      Except.ok (ResolvedArchitecture.static PHI2_INFO_AGAIN_BUT_DIFFERENT)) ∧
    (∃ s ∈ PHI2_INFO.layer_weight_suffixes, strContains s "mixer") ∧
    (∀ s ∈ PHI2_INFO.layer_weight_suffixes, ¬ strContains s "self_attn") ∧
    (∃ s ∈ PHI2_INFO.post_weight_names, strContains s "linear") ∧
    (∃ s ∈ PHI2_INFO_AGAIN_BUT_DIFFERENT.layer_weight_suffixes, strContains s "self_attn") ∧
    (∃ s ∈ PHI2_INFO_AGAIN_BUT_DIFFERENT.layer_weight_suffixes, strContains s "q_proj") ∧
    (∀ s ∈ PHI2_INFO_AGAIN_BUT_DIFFERENT.layer_weight_suffixes, ¬ strContains s "mixer") ∧
    PHI2_INFO.pre_weight_names ≠ PHI2_INFO_AGAIN_BUT_DIFFERENT.pre_weight_names ∧
    PHI2_INFO.post_weight_names ≠ PHI2_INFO_AGAIN_BUT_DIFFERENT.post_weight_names :=
  ⟨fun f => rfl, fun f => rfl, by decide, by decide, by decide, by decide, by decide,
    by decide, by decide, by decide⟩

/-- C7: a configuration declaring exactly `LlamaForCausalLM` with layer count 2
resolves to the Llama descriptor, and its `all_weights` has exactly 21 entries
whose first and last are embedding weights while every per-layer weight is not. -/
theorem c7_llama_two_layers :
    get_architecture_info ⟨["LlamaForCausalLM"], "llama",
        fun k => if k = "num_hidden_layers" then 2 else 0⟩ =
      Except.ok (ResolvedArchitecture.static LLAMA_INFO) ∧
    (LLAMA_INFO.toArch.all_weights ⟨["LlamaForCausalLM"], "llama",
        fun k => if k = "num_hidden_layers" then 2 else 0⟩).map List.length = some 21 ∧
    (LLAMA_INFO.toArch.all_weights ⟨["LlamaForCausalLM"], "llama",
        fun k => if k = "num_hidden_layers" then 2 else 0⟩).map
        (fun l => l.map WeightInfo.is_embed) =
      some (true :: (List.replicate 19 false ++ [true])) :=
  ⟨rfl, by decide, by decide⟩

/-- C4 counterexample: with the shared name `PhiForCausalLM` and the unknown
discriminator value `bogus`, resolution does fail, but the error message names
only the architecture, not the discriminator value — refuting the part of the
claim that says the error surfaces both. -/
theorem c4_discriminator_error_counterexample :
    get_architecture_info ⟨["PhiForCausalLM"], "bogus", fun _ => 0⟩ =
      Except.error (PyErr.runtimeError "Unsupported architecture PhiForCausalLM") ∧
    ¬ strContains "Unsupported architecture PhiForCausalLM" "bogus" :=
  ⟨rfl, by decide⟩

/-- C4 (amended): for every configuration declaring the shared name
`PhiForCausalLM` with a discriminator value matching neither `phi-msft` nor
`phi`, `get_architecture_info` fails; the error is the generic
unsupported-architecture error, which surfaces the architecture name but not
the discriminator value (the lookup falls through to the static-table scan,
which has no `PhiForCausalLM` entry). -/
theorem c4_unknown_discriminator_fails (mt : String) (f : String → Int)
    (h1 : mt ≠ "phi-msft") (h2 : mt ≠ "phi") :
    get_architecture_info ⟨["PhiForCausalLM"], mt, f⟩ =
      Except.error (PyErr.runtimeError "Unsupported architecture PhiForCausalLM") ∧
    strContains "Unsupported architecture PhiForCausalLM" "PhiForCausalLM" := by
  refine ⟨?_, by decide⟩
  show (if mt = "phi-msft" then Except.ok (ResolvedArchitecture.static PHI2_INFO)
    else if mt = "phi" then
      Except.ok (ResolvedArchitecture.static PHI2_INFO_AGAIN_BUT_DIFFERENT)
    else scanSupported "PhiForCausalLM") =
      Except.error (PyErr.runtimeError "Unsupported architecture PhiForCausalLM")
  rw [if_neg h1, if_neg h2]
  rfl

/-- Witness for C4: the discriminator value `bogus`. -/
theorem c4_unknown_discriminator_fails_witness :
    ("bogus" ≠ "phi-msft") ∧ ("bogus" ≠ "phi") ∧
    (get_architecture_info ⟨["PhiForCausalLM"], "bogus", fun _ => (0 : Int)⟩ =
      Except.error (PyErr.runtimeError "Unsupported architecture PhiForCausalLM") ∧
    strContains "Unsupported architecture PhiForCausalLM" "PhiForCausalLM") :=
  ⟨by decide, by decide,
    c4_unknown_discriminator_fails "bogus" (fun _ => 0) (by decide) (by decide)⟩

/-- C5: for every configuration whose architecture-name list has length zero
or greater than one, `get_architecture_info` fails immediately with the fatal
`More than one architecture in config?` error and returns no partial result. -/
theorem c5_arch_count_validation (archs : List String) (mt : String) (f : String → Int)
    (h : archs.length ≠ 1) :
    get_architecture_info ⟨archs, mt, f⟩ =
      Except.error (PyErr.runtimeError "More than one architecture in config?") := by
  match archs with
  | [] => rfl
  | [a] => exact absurd rfl h
  | a :: b :: rest => rfl

/-- Witness for C5: a configuration declaring two architecture names. -/
theorem c5_arch_count_validation_witness :
    (["ArchA", "ArchB"] : List String).length ≠ 1 ∧
    get_architecture_info ⟨["ArchA", "ArchB"], "m", fun _ => (0 : Int)⟩ =
      Except.error (PyErr.runtimeError "More than one architecture in config?") :=
  ⟨by decide, c5_arch_count_validation ["ArchA", "ArchB"] "m" (fun _ => 0) (by decide)⟩
